import Mathlib

/-!
Shallow embedding of the build-provenance signature and cache-invalidation
engine of `mcserver` (a helper application that manages a locally compiled
Minecraft server jar), together with proofs about that embedding.

Modelling conventions:
* Filesystem paths (`pathlib.Path` values) are lists of path components
  (`PathT`); `joinPath` and `splitPath` model `str(path)` and `Path(string)`.
* SHA-256 digests are modelled injectively: `Digest.mk s` stands for the hex
  digest of the byte stream `s` (hash collisions are assumed not to occur,
  and byte strings are identified with `String`).
* Python exceptions become the `PyError` type; functions that can raise
  return `Except PyError α`.
* Stateful code is threaded through an explicit world state (`World`);
  `PyM α` is `World → Except PyError α × World`, so filesystem writes are
  expressible in the type and read-only behaviour is a provable property.
-/

namespace Mcserver

/-- Path model: a `pathlib.Path` as its list of components. -/
abbrev PathT := List String

/-- Model of `str(path)` for a relative `pathlib.Path`: components joined
with `/` (working at the character-list level so that everything computes). -/
def joinPath (p : PathT) : String :=
  String.mk (List.intercalate ['/'] (p.map String.data))

/-- Model of `Path(string)`: split the string on `/`. -/
def splitPath (s : String) : PathT :=
  (s.data.splitOn '/').map String.mk

/-- Paths that actually occur as `pathlib.Path` values: a nonempty component
list in which no component contains a slash. -/
def ValidPath (p : PathT) : Prop :=
  p ≠ [] ∧ ∀ s ∈ p, '/' ∉ s.data

instance (p : PathT) : Decidable (ValidPath p) := by
  unfold ValidPath; infer_instance

/-- Model of the Python string comparison used by `Path.__lt__` / `sorted`:
lexicographic comparison of code points. -/
def charListLt : List Char → List Char → Bool
  | [], [] => false
  | [], _ :: _ => true
  | _ :: _, [] => false
  | a :: as, b :: bs =>
    if a.toNat < b.toNat then true
    else if b.toNat < a.toNat then false
    else charListLt as bs

/-- Comparison of two paths, as Python compares `Path` objects (by their
string form). -/
def pathLt (a b : PathT) : Bool := charListLt (joinPath a).data (joinPath b).data

/-- Non-strict path comparison (`a <= b` in Python terms). -/
def pathLe (a b : PathT) : Bool := !(pathLt b a)

/-- Insert a path into a sorted list of paths, keeping it sorted.  Together
with `sortPaths` this models Python's stable ascending `sorted` / `list.sort`. -/
def insertPath (x : PathT) : List PathT → List PathT
  | [] => [x]
  | y :: ys => if pathLe x y then x :: y :: ys else y :: insertPath x ys

/-- Sort a list of paths ascending, modelling Python `sorted(paths)`. -/
def sortPaths : List PathT → List PathT
  | [] => []
  | x :: xs => insertPath x (sortPaths xs)

/-- Model of `f"{s:10}"`: left-justified padding with spaces to width 10. -/
def padTen (s : String) : String :=
  String.mk (s.data ++ List.replicate (10 - s.data.length) ' ')

/-- Model of `path.name`: the final path component. -/
def lastName (p : PathT) : String := (p.getLast?).getD ""

/-- SHA-256 hex digest, modelled injectively by the byte stream that was
hashed (a faithful model under the assumption that no collision occurs). -/
structure Digest where
  data : String
deriving DecidableEq, Repr

/-- Python exceptions that the embedded code can raise. -/
inductive PyError where
  /-- `CacheInvalidationException(summary, full_message)` (a subclass of
  `PaperVersionException`): the expected, recoverable invalidation signal. -/
  | cacheInvalidation (summary : String) (full_message : List String)
  /-- `PaperVersionException(msg)` constructed with a single positional
  argument (fatal, not a cache-invalidation error). -/
  | paperVersion (msg : String)
  /-- `TypeError`: e.g. passing keyword arguments to `Exception.__init__`. -/
  | typeError
  /-- `UnboundLocalError`: reading a local variable that was never assigned. -/
  | unboundLocal
  /-- `KeyError` from `pygit2.Repository.revparse_single`. -/
  | keyError
  /-- `ValueError`. -/
  | valueError
  /-- `AssertionError` from a failed `assert`. -/
  | assertionError
  /-- `IsADirectoryError` from `open()` on a directory. -/
  | isADirectory
  /-- `FileNotFoundError` from `open()` on a missing file. -/
  | fileNotFound
  /-- `pygit2.GitError`: e.g. opening a path that is not a repository, or
  reading `repo.head` of a repository with no commits. -/
  | gitError
  /-- `NameError`: the bare name `GitError` in `hash_file`'s `except` clause
  is not defined at module level, so matching it raises `NameError`. -/
  | nameError
  /-- `requests.HTTPError` surfaced by `raise_for_status()`. -/
  | httpError
  /-- `RecursionError`: Python's recursion budget is exhausted.  The scanner
  model spends budget only on submodule nesting and is always invoked with
  enough of it (see `detectChangedFiles_unfold`), so this never escapes. -/
  | recursionError
deriving DecidableEq, Repr

instance {ε α : Type} [DecidableEq ε] [DecidableEq α] : DecidableEq (Except ε α) :=
  fun x y =>
  match x, y with
  | .ok a, .ok b =>
    if h : a = b then .isTrue (congrArg Except.ok h)
    else .isFalse (fun hh => h (Except.ok.inj hh))
  | .error e, .error f =>
    if h : e = f then .isTrue (congrArg Except.error h)
    else .isFalse (fun hh => h (Except.error.inj hh))
  | .ok _, .error _ => .isFalse (fun hh => Except.noConfusion hh)
  | .error _, .ok _ => .isFalse (fun hh => Except.noConfusion hh)

/-! ## `MinecraftVersion` -/

/-- Model of `_MINECRAFT_VERSION_PATTERN.fullmatch`: `(\d+)\.(\d+)(?:\.(\d+))?`
with `int(match[3] or "0")` for the optional patch component. -/
def parseVersionName (name : String) : Option (Nat × Nat × Nat) :=
  let isDigits : String → Bool := fun s => !s.data.isEmpty && s.data.all Char.isDigit
  let toNatD : String → Nat := fun s => s.data.foldl (fun n c => n * 10 + (c.toNat - 48)) 0
  match (name.data.splitOn '.').map String.mk with
  | [a, b] => if isDigits a && isDigits b then some (toNatD a, toNatD b, 0) else none
  | [a, b, c] =>
    if isDigits a && isDigits b && isDigits c then some (toNatD a, toNatD b, toNatD c)
    else none
  | _ => none

/-- The `MinecraftVersion` data: version string plus the parsed numbers. -/
structure MinecraftVersion where
  name : String
  major : Nat
  minor : Nat
  patch : Nat
deriving DecidableEq, Repr

/-- Running `__init__` on a fresh instance: validate the name against the
version pattern and fill in the numeric fields. -/
def MinecraftVersion.initFields (name : String) : Option MinecraftVersion :=
  (parseVersionName name).map fun t => ⟨name, t.1, t.2.1, t.2.2⟩

/-- The module-level interning table `MinecraftVersion._KNOWN_VERSIONS`,
passed explicitly. -/
abbrev KnownVersions := List (String × MinecraftVersion)

/-- Model of `MinecraftVersion(name)`: `__new__` consults the interning table
and returns the cached instance when present (so two constructions from the
identical string yield the very same instance); otherwise `__init__`
validates the name (raising `ValueError` on a mismatch) and registers the
new instance. -/
def MinecraftVersion.construct (known : KnownVersions) (name : String) :
    Except PyError (MinecraftVersion × KnownVersions) :=
  match known.lookup name with
  | some cached => .ok (cached, known)
  | none =>
    match MinecraftVersion.initFields name with
    | none => .error .valueError
    | some v => .ok (v, (name, v) :: known)

/-- Model of `MinecraftVersion.__eq__`: comparison by the literal name string. -/
def MinecraftVersion.veq (a b : MinecraftVersion) : Bool := a.name == b.name

/-- Model of `MinecraftVersion.__hash__`, which is `hash(self.name)`; the
string hash is modelled injectively by the name itself. -/
def MinecraftVersion.hashv (v : MinecraftVersion) : String := v.name

/-- Model of `MinecraftVersion.__gt__` exactly as written in the source:
`self.major > other.major or self.minor > other.minor or self.patch > other.patch`. -/
def MinecraftVersion.vgt (a b : MinecraftVersion) : Bool :=
  decide (a.major > b.major) || decide (a.minor > b.minor) || decide (a.patch > b.patch)

/-- Modelled from the spec: "total ordering (lexicographic on the triple)" —
`a > b` iff the triple `(major, minor, patch)` of `a` is lexicographically
greater than that of `b`.  Used only to compare against the source's
`__gt__`. -/
def MinecraftVersion.lexGtSpec (a b : MinecraftVersion) : Bool :=
  decide (a.major > b.major) ||
    (decide (a.major = b.major) &&
      (decide (a.minor > b.minor) ||
        (decide (a.minor = b.minor) && decide (a.patch > b.patch))))

/-! ## `DevCommit` and `DevCommit.revparse` -/

/-- The data `DevCommit.revparse` reads off a successfully revparsed object:
`ref.short_id` and `getattr(ref, 'message', None)`. -/
structure RevEntry where
  short_id : String
  message : Option String
deriving DecidableEq, Repr

/-- Model of one repository's `revparse_single`: the revision expressions it
resolves, with the resolved data; a missing key means `revparse_single`
raises (`KeyError`). -/
abbrev RevTable := List (String × RevEntry)

structure DevCommit where
  short_id : String
  summary : String
  full_message : String
deriving DecidableEq, Repr

/-- Model of `DevCommit.revparse`.  Mirrors the source exactly:

* resolution failure with `strict=False` falls back to the raw `target_id`
  and message `None`;
* a `None`/empty/whitespace message raises `ValueError` when strict, else is
  replaced by `"<UNKNOWN MESSGAE>"` (sic);
* the local variable `summary` is assigned only inside the
  `if '\n' in message` branch, so when the message contains no newline the
  final `DevCommit(short_id, summary, message)` raises `UnboundLocalError`. -/
def DevCommit.revparse (revs : RevTable) (target_id : String) (strict : Bool) :
    Except PyError DevCommit :=
  let step : Except PyError (String × Option String) :=
    match revs.lookup target_id with
    | some e => .ok (e.short_id, e.message)
    | none => if strict then .error .keyError else .ok (target_id, none)
  match step with
  | .error e => .error e
  | .ok (short_id, message) =>
    let fixed : Except PyError String :=
      match message with
      | none => if strict then .error .valueError else .ok "<UNKNOWN MESSGAE>"
      | some m =>
        if m.data.all Char.isWhitespace then
          if strict then .error .valueError else .ok "<UNKNOWN MESSGAE>"
        else .ok m
    match fixed with
    | .error e => .error e
    | .ok msg =>
      if msg.data.contains '\n' then
        .ok ⟨short_id, String.mk (msg.data.takeWhile (· ≠ '\n')), msg⟩
      else .error .unboundLocal

/-! ## `BuildInfo` and `DevJarSignature` -/

structure BuildCommit where
  commit_id : String
  summary : String
  message : String
deriving DecidableEq, Repr

structure BuildInfo where
  project_id : String
  project_name : String
  minecraft_version : MinecraftVersion
  build_number : Int
  time : String
  changes : List BuildCommit
  download_name : String
  download_hash : Digest
deriving DecidableEq, Repr

/-- The signature of a jar file compiled from a git repo.  The
`modified_sources` dict is modelled as an association list (the code only
ever builds it with distinct keys). -/
structure DevJarSignature where
  jar_hash : Digest
  source_commit : String
  modified_sources : List (PathT × Digest)
deriving DecidableEq, Repr

/-- The structured form written to / read from the JSON side-car file:
`DevJarSignature.save` stringifies the path keys. -/
structure SigJson where
  jar_hash : Digest
  source_commit : String
  modified_sources : List (String × Digest)
deriving DecidableEq, Repr

/-- Model of `DevJarSignature.save`. -/
def DevJarSignature.save (s : DevJarSignature) : SigJson :=
  ⟨s.jar_hash, s.source_commit, s.modified_sources.map fun kv => (joinPath kv.1, kv.2)⟩

/-- Model of `DevJarSignature.parse`. -/
def DevJarSignature.parse (d : SigJson) : DevJarSignature :=
  ⟨d.jar_hash, d.source_commit, d.modified_sources.map fun kv => (splitPath kv.1, kv.2)⟩

/-- The key set of a `modified_sources` mapping (Python `set(dict)` /
`dict.keys()`). -/
def sigKeys (m : List (PathT × Digest)) : List PathT := m.map Prod.fst

/-- Python set equality of two key collections. -/
def setEqPaths (a b : List PathT) : Bool :=
  a.all (fun p => decide (p ∈ b)) && b.all (fun p => decide (p ∈ a))

/-- Python dict equality: same keys with the same values. -/
def dictEqPD (a b : List (PathT × Digest)) : Bool :=
  a.all (fun kv => b.lookup kv.1 == some kv.2) && b.all (fun kv => a.lookup kv.1 == some kv.2)

/-- Model of dataclass equality `DevJarSignature.__eq__` (field-wise, with
dict semantics for `modified_sources`). -/
def sigEq (a b : DevJarSignature) : Bool :=
  a.jar_hash == b.jar_hash && a.source_commit == b.source_commit &&
    dictEqPD a.modified_sources b.modified_sources

/-! ## Repository status model and the change scanner -/

/-- Status flag constant `pygit2.GIT_STATUS_CURRENT`. -/
def GIT_STATUS_CURRENT : Nat := 0

/-- Status flag constant `pygit2.GIT_STATUS_IGNORED`. -/
def GIT_STATUS_IGNORED : Nat := 16384

/-- A directory subtree on disk, as seen by `os.walk`. -/
inductive FsTree where
  | file : FsTree
  | dir : List (String × FsTree) → FsTree

/-- Model of one `pygit2.Repository` as the change scanner consumes it:

* the `repo.status()` map (status path, flag bits);
* the registered submodule paths (`repo.listall_submodules()`);
* the repositories actually present on disk at submodule status paths
  (opening a submodule path that is missing here raises `GitError`);
* the on-disk directory listing for each status path that is a directory
  (a status path absent here is not a directory);
* the relative paths matched by the ignore rules (`repo.path_is_ignored`). -/
inductive Repo where
  | mk :
      (status : List (String × Nat)) →
      (submodules : List String) →
      (subrepos : List (String × Repo)) →
      (dirListings : List (String × List (String × FsTree))) →
      (ignoredPaths : List String) →
      Repo

def Repo.status : Repo → List (String × Nat)
  | .mk s _ _ _ _ => s

def Repo.submodules : Repo → List String
  | .mk _ sm _ _ _ => sm

def Repo.subrepos : Repo → List (String × Repo)
  | .mk _ _ sr _ _ => sr

def Repo.dirListings : Repo → List (String × List (String × FsTree))
  | .mk _ _ _ d _ => d

def Repo.ignoredPaths : Repo → List String
  | .mk _ _ _ _ i => i

mutual
/-- Structural size of a repository model: one plus the sizes of its
subrepositories (the submodule nesting is finite, so this bounds the
recursion depth of the scanner). -/
def repoSize : Repo → Nat
  | .mk _ _ subs _ _ => 1 + repoListSize subs

/-- Combined size of an association list of subrepositories. -/
def repoListSize : List (String × Repo) → Nat
  | [] => 0
  | (_, r) :: rest => repoSize r + repoListSize rest
end

/-- Emit the non-ignored files of one directory level (the `for name in
filenames` loop of the walk branch). -/
def walkFiles (ign : List String) (dirAbs dirRel : PathT) :
    List (String × FsTree) → List PathT
  | [] => []
  | (n, .file) :: rest =>
    if joinPath (dirRel ++ [n]) ∈ ign then walkFiles ign dirAbs dirRel rest
    else (dirAbs ++ [n]) :: walkFiles ign dirAbs dirRel rest
  | (_, .dir _) :: rest => walkFiles ign dirAbs dirRel rest

/-- Emit the non-ignored subdirectories of one directory level (the
`for sub_dir in list(dirnames)` loop; ignored subdirectories are pruned). -/
def walkDirs (ign : List String) (dirAbs dirRel : PathT) :
    List (String × FsTree) → List PathT
  | [] => []
  | (_, .file) :: rest => walkDirs ign dirAbs dirRel rest
  | (n, .dir _) :: rest =>
    if joinPath (dirRel ++ [n]) ∈ ign then walkDirs ign dirAbs dirRel rest
    else (dirAbs ++ [n]) :: walkDirs ign dirAbs dirRel rest

mutual
/-- Everything the `os.walk` loop of `detect_changed_files` yields under one
directory: at each level, the non-ignored files, then the non-ignored
subdirectories, then (top-down) the contents of the non-pruned
subdirectories. -/
def walkTree (ign : List String) (dirAbs dirRel : PathT)
    (entries : List (String × FsTree)) : List PathT :=
  walkFiles ign dirAbs dirRel entries ++ walkDirs ign dirAbs dirRel entries ++
    walkDescend ign dirAbs dirRel entries

/-- Descend into the non-pruned subdirectories of one level, in order. -/
def walkDescend (ign : List String) (dirAbs dirRel : PathT) :
    List (String × FsTree) → List PathT
  | [] => []
  | (_, .file) :: rest => walkDescend ign dirAbs dirRel rest
  | (n, .dir sub) :: rest =>
    if joinPath (dirRel ++ [n]) ∈ ign then walkDescend ign dirAbs dirRel rest
    else
      walkTree ign (dirAbs ++ [n]) (dirRel ++ [n]) sub ++
        walkDescend ign dirAbs dirRel rest
end

/-- Looking a key up in an association list of subrepositories finds a
smaller `Repo` (the budget spent on the scanner suffices for submodules). -/
def repoSize_lookup_subrepos {l : List (String × Repo)} {n : String} {r : Repo}
    (h : l.lookup n = some r) : repoSize r < 1 + repoListSize l := by
  induction l with
  | nil => simp [List.lookup] at h
  | cons hd tl ih =>
    rw [List.lookup] at h
    split at h
    · cases h
      obtain ⟨n', r'⟩ := hd
      simp only [repoListSize]
      omega
    · have := ih h
      obtain ⟨n', r'⟩ := hd
      simp only [repoListSize] at this ⊢
      omega

/-- Sequence the yields of one status entry with the yields of the rest of
the status list, propagating the first exception (a generator raises as soon
as the failing entry is reached). -/
def combineScan (first rest : Except PyError (List PathT)) :
    Except PyError (List PathT) :=
  match first, rest with
  | .error err, _ => .error err
  | .ok _, .error err => .error err
  | .ok f, .ok more => .ok (f ++ more)

/-- Process one `(file, flags)` status entry, with `recurse` standing for
the recursive invocation of the scanner on a submodule repository:

* entries flagged current or ignored are skipped;
* a non-directory path is yielded directly;
* a directory that is a registered submodule is yielded itself and then the
  scanner recurses into it as its own repository (opening a submodule path
  with no repository on disk raises `GitError`);
* any other directory is walked, yielding its non-ignored files and
  subdirectories; if nothing is yielded the source raises `AssertionError`
  ("Unable to find git's claimed modification"). -/
def scanEntryWith (recurse : Repo → PathT → Except PyError (List PathT))
    (repo : Repo) (repoPath : PathT) (e : String × Nat) :
    Except PyError (List PathT) :=
  if e.2 = GIT_STATUS_CURRENT ∨ e.2 = GIT_STATUS_IGNORED then .ok []
  else
    match (Repo.dirListings repo).lookup e.1 with
    | none => .ok [repoPath ++ splitPath e.1]
    | some listing =>
      if joinPath (splitPath e.1) ∈ Repo.submodules repo then
        match (Repo.subrepos repo).lookup e.1 with
        | none => .error .gitError
        | some sub =>
          match recurse sub (repoPath ++ splitPath e.1) with
          | .error err => .error err
          | .ok inner => .ok ((repoPath ++ splitPath e.1) :: inner)
      else
        if walkTree (Repo.ignoredPaths repo) (repoPath ++ splitPath e.1)
            (splitPath e.1) listing = [] then
          .error .assertionError
        else
          .ok (walkTree (Repo.ignoredPaths repo) (repoPath ++ splitPath e.1)
            (splitPath e.1) listing)

/-- The scanner with an explicit recursion budget, spent once per submodule
nesting level (Python itself enforces such a budget through its recursion
limit).  `detectChangedFiles` below always supplies a sufficient budget, as
`detectChangedFiles_unfold` proves. -/
def scanFuel : Nat → Repo → PathT → Except PyError (List PathT)
  | 0, _, _ => .error .recursionError
  | fuel + 1, repo, repoPath =>
    repo.status.foldr
      (fun e acc =>
        combineScan (scanEntryWith (fun r p => scanFuel fuel r p) repo repoPath e) acc)
      (.ok [])

/-- Model of the module-level generator `detect_changed_files(repo,
repo_path)`, collected into the list of yielded paths (or the exception it
raises): iterate `for file, flags in repo.status().items()`, concatenating
the paths yielded for each status entry, recursing into submodules. -/
def detectChangedFiles (repo : Repo) (repoPath : PathT) :
    Except PyError (List PathT) :=
  scanFuel (repoSize repo) repo repoPath

/-! ## The world state and `hash_file` -/

/-- The state the program interacts with: file contents, directories,
repositories (head commit, status model, revparse table), the parsed content
of signature side-car files, the remote Paper catalog, and the user's home
directory.  Every map is an association list keyed by path. -/
structure World where
  files : List (PathT × String)
  dirs : List PathT
  repoHeads : List (PathT × Option String)
  scanRepos : List (PathT × Repo)
  revs : List (PathT × RevTable)
  sigFiles : List (PathT × SigJson)
  catalogBuilds : List (String × List Int)
  catalogInfos : List ((String × Int) × BuildInfo)
  home : PathT

/-- Model of `path.exists()`. -/
def fsExists (w : World) (p : PathT) : Bool :=
  (w.files.lookup p).isSome || decide (p ∈ w.dirs)

/-- Model of module-level `hash_file(target, *, hash_dir_as_repo=False)`:

* a regular file hashes its contents;
* `open()` on a directory raises `IsADirectoryError`, re-raised unless
  `hash_dir_as_repo` is set;
* in repo mode, a directory that is not a git repository hits the
  `except GitError` clause, whose bare name `GitError` is undefined at module
  level, so Python raises `NameError` (the intended `ValueError` is dead);
* otherwise the raw bytes of the head commit id are hashed.  `repo.head` on a
  repository with an unborn HEAD raises `GitError` in pygit2, so the
  `m.update(b"NONE")` branch is unreachable and is modelled as that error;
* a missing path raises `FileNotFoundError`. -/
def hash_file (w : World) (target : PathT) (hash_dir_as_repo : Bool) :
    Except PyError Digest :=
  match w.files.lookup target with
  | some content => .ok ⟨content⟩
  | none =>
    if target ∈ w.dirs then
      if !hash_dir_as_repo then .error .isADirectory
      else
        match w.repoHeads.lookup target with
        | none => .error .nameError
        | some none => .error .gitError
        | some (some headId) => .ok ⟨headId⟩
    else .error .fileNotFound

/-! ## The `PyM` state monad -/

/-- A Python computation over the world: it produces a result or an
exception, and may update the world (filesystem writes). -/
def PyM (α : Type) : Type := World → Except PyError α × World

/-- Lift a read-only computation into `PyM`. -/
def PyM.lift {α : Type} (f : World → Except PyError α) : PyM α := fun w => (f w, w)

/-- Return a value without touching the world. -/
def PyM.ret {α : Type} (a : α) : PyM α := fun w => (.ok a, w)

/-- Raise an exception. -/
def PyM.throw {α : Type} (e : PyError) : PyM α := fun w => (.error e, w)

/-- Sequencing: run `m`; on success feed its result to `f`, on an exception
propagate it (leaving the world as `m` left it). -/
def PyM.bind {α β : Type} (m : PyM α) (f : α → PyM β) : PyM β := fun w =>
  match m w with
  | (.ok a, w2) => f a w2
  | (.error e, w2) => (.error e, w2)

/-- A computation is read-only when it leaves the world untouched, whether
it returns or raises. -/
def ReadOnly {α : Type} (m : PyM α) : Prop := ∀ w : World, (m w).2 = w

/-! ## `OfficialPaperJar` -/

structure OfficialPaperJar where
  minecraft_version : MinecraftVersion
  build_number : Int
deriving DecidableEq, Repr

/-- Model of `OfficialPaperJar.describe`. -/
def OfficialPaperJar.describe (j : OfficialPaperJar) : String :=
  "Paper-" ++ toString j.build_number

/-- Model of `OfficialPaperJar.resolved_path`:
`cache/official-builds/paper-{build_number}.jar`. -/
def OfficialPaperJar.resolved_path (j : OfficialPaperJar) : PathT :=
  ["cache", "official-builds", "paper-" ++ toString j.build_number ++ ".jar"]

/-- Model of `MinecraftVersion.known_paper_builds`: the catalog's build list
for a version; an unknown version is a failed HTTP request. -/
def knownPaperBuilds (w : World) (v : MinecraftVersion) : Except PyError (List Int) :=
  match w.catalogBuilds.lookup v.name with
  | some bs => .ok bs
  | none => .error .httpError

/-- Model of `MinecraftVersion.fetch_paper_build`. -/
def fetchPaperBuild (w : World) (v : MinecraftVersion) (n : Int) :
    Except PyError BuildInfo :=
  match w.catalogInfos.lookup (v.name, n) with
  | some i => .ok i
  | none => .error .httpError

/-- Model of Python `max(list)` on a nonempty list. -/
def pyMaxInt (x : Int) (xs : List Int) : Int := xs.foldl max x

/-- Model of `OfficialPaperJar.check_updates(force=…, ignore_updates=…)`.

Unless `ignore_updates`, the known builds are consulted (`force` clears the
in-memory memo of `known_paper_builds`; the catalog model is a pure snapshot,
so the refetch returns the same data and the memo is transparent here):

* no known builds: `PaperVersionException` (single positional argument);
* a known build newer than ours: return a new jar for it;
* the known maximum equal to ours: fall through to cache validation;
* the known maximum *smaller* than ours: the source executes
  `raise PaperVersionException(summary=..., full_message=...)`, but
  `Exception.__init__` rejects keyword arguments, so constructing the
  exception itself raises `TypeError` — no `PaperVersionException` is ever
  created on this path.

Cache validation then checks artifact existence and compares its hash with
the catalog's recorded hash for this exact build. -/
def OfficialPaperJar.check_updates (j : OfficialPaperJar)
    (force ignore_updates : Bool) : PyM (Option OfficialPaperJar) :=
  let validatePart : PyM (Option OfficialPaperJar) :=
    PyM.bind (PyM.lift fun w => .ok (fsExists w j.resolved_path)) fun ex =>
    if !ex then
      PyM.throw (.cacheInvalidation ("Missing downloaded for " ++ j.describe) [])
    else
      PyM.bind (PyM.lift fun w =>
        match hash_file w j.resolved_path false with
        | .error .fileNotFound =>
          .error (.cacheInvalidation
            ("Missing build " ++ toString j.build_number ++ " for " ++
              j.minecraft_version.name) [])
        | r => r) fun actual_jar_hash =>
      PyM.bind (PyM.lift fun w =>
        fetchPaperBuild w j.minecraft_version j.build_number) fun info =>
      if actual_jar_hash ≠ info.download_hash then
        PyM.throw (.cacheInvalidation ("Mismatched hash for " ++ j.describe)
          ["Expected " ++ info.download_hash.data,
           "Actually " ++ actual_jar_hash.data])
      else PyM.ret none
  if !ignore_updates then
    PyM.bind (PyM.lift fun w => knownPaperBuilds w j.minecraft_version) fun known =>
    match known with
    | [] =>
      PyM.throw (.paperVersion
        ("No known Paper builds for minecraft " ++ j.minecraft_version.name))
    | b :: bs =>
      let maximum_build := pyMaxInt b bs
      if maximum_build > j.build_number then
        PyM.ret (some ⟨j.minecraft_version, maximum_build⟩)
      else if maximum_build = j.build_number then validatePart
      else PyM.throw .typeError
  else validatePart

/-! ## `DevelopmentJar` -/

structure DevelopmentJar where
  minecraft_version : MinecraftVersion
  git_directory : PathT
deriving DecidableEq, Repr

/-- Model of `DevelopmentJar.resolved_path`:
`{git_directory}/Paper-Server/target/paper-{version}.jar`. -/
def DevelopmentJar.resolved_path (dj : DevelopmentJar) : PathT :=
  dj.git_directory ++
    ["Paper-Server", "target", "paper-" ++ dj.minecraft_version.name ++ ".jar"]

/-- Model of `DevelopmentJar.jar_signature_path`:
`cache/dev-signature-{version}.json`. -/
def DevelopmentJar.jar_signature_path (dj : DevelopmentJar) : PathT :=
  ["cache", "dev-signature-" ++ dj.minecraft_version.name ++ ".json"]

/-- Model of `pygit2.Repository(path)` for the scanner: the status model of
the repository at `path`, or `GitError` when none is there. -/
def openScanRepo (w : World) (p : PathT) : Except PyError Repo :=
  match w.scanRepos.lookup p with
  | some r => .ok r
  | none => .error .gitError

/-- Model of `DevelopmentJar.current_commit`: `str(open_repo().head.target)`.
Opening a non-repository raises `GitError`; so does reading `head` of a
repository with an unborn HEAD (making the source's `if head is None` branch
unreachable). -/
def DevelopmentJar.current_commit (w : World) (dj : DevelopmentJar) :
    Except PyError String :=
  match w.repoHeads.lookup dj.git_directory with
  | none => .error .gitError
  | some none => .error .gitError
  | some (some c) => .ok c

/-- Scan each `(repo, repo_path)` pair in turn, re-rooting every yielded path
relative to `git_directory` (the `changed.extend(p.relative_to(...))` loop). -/
def scanRepoPairs (gitDir : PathT) : List (Repo × PathT) → Except PyError (List PathT)
  | [] => .ok []
  | (repo, repoPath) :: rest =>
    match detectChangedFiles repo repoPath with
    | .error e => .error e
    | .ok paths =>
      match scanRepoPairs gitDir rest with
      | .error e => .error e
      | .ok more => .ok (paths.map (fun p => p.drop gitDir.length) ++ more)

/-- Model of the method `DevelopmentJar.detect_changed_files`: scan the main
repository, plus `Paper-Server` and `Paper-API` when those directories
exist (they are normally git-ignored but must be checked as their own
repositories), then sort the combined relative paths. -/
def DevelopmentJar.detect_changed_files (w : World) (dj : DevelopmentJar) :
    Except PyError (List PathT) :=
  match openScanRepo w dj.git_directory with
  | .error e => .error e
  | .ok mainRepo =>
    let repos0 : List (Repo × PathT) := [(mainRepo, dj.git_directory)]
    let serverPath := dj.git_directory ++ ["Paper-Server"]
    let step1 : Except PyError (List (Repo × PathT)) :=
      if fsExists w serverPath then
        match openScanRepo w serverPath with
        | .error e => .error e
        | .ok r => .ok (repos0 ++ [(r, serverPath)])
      else .ok repos0
    match step1 with
    | .error e => .error e
    | .ok repos1 =>
      let apiPath := dj.git_directory ++ ["Paper-API"]
      let step2 : Except PyError (List (Repo × PathT)) :=
        if fsExists w apiPath then
          match openScanRepo w apiPath with
          | .error e => .error e
          | .ok r => .ok (repos1 ++ [(r, apiPath)])
        else .ok repos1
      match step2 with
      | .error e => .error e
      | .ok repos2 =>
        match scanRepoPairs dj.git_directory repos2 with
        | .error e => .error e
        | .ok changed => .ok (sortPaths changed)

/-- The dict comprehension on line 590 of the source, as an explicit loop:
for every changed path `p` the recorded value is
`hash_file(Path(self.git_directory), hash_dir_as_repo=True)` — the
repository-mode hash of the *git directory itself*, not a hash of `p`. -/
def hashChangedList (w : World) (gitDir : PathT) :
    List PathT → Except PyError (List (PathT × Digest))
  | [] => .ok []
  | p :: rest =>
    match hash_file w gitDir true with
    | .error e => .error e
    | .ok h =>
      match hashChangedList w gitDir rest with
      | .error e => .error e
      | .ok more => .ok ((p, h) :: more)

/-- Model of `DevelopmentJar.detect_current_signature`. -/
def DevelopmentJar.detect_current_signature (w : World) (dj : DevelopmentJar) :
    Except PyError DevJarSignature :=
  match hash_file w dj.resolved_path false with
  | .error e => .error e
  | .ok jar_hash =>
    match DevelopmentJar.current_commit w dj with
    | .error e => .error e
    | .ok source_commit =>
      match DevelopmentJar.detect_changed_files w dj with
      | .error e => .error e
      | .ok changed =>
        match hashChangedList w dj.git_directory changed with
        | .error e => .error e
        | .ok ms => .ok ⟨jar_hash, source_commit, ms⟩

/-- The `repo_name` computed at the top of `validate_cache`.  The source
tests `self.git_directory in Path.home().parents`, i.e. whether the git
directory is a *strict ancestor* of the home directory; in that case
`git_directory.relative_to(Path.home())` raises `ValueError` (the git
directory is not below home).  Otherwise the full path string is used. -/
def DevelopmentJar.repoName (w : World) (dj : DevelopmentJar) :
    Except PyError String :=
  if dj.git_directory <+: w.home ∧ dj.git_directory ≠ w.home then .error .valueError
  else .ok (joinPath dj.git_directory)

/-- Model of reading and parsing the signature side-car file
(`cached_jar_signature`, which implicitly loads on first access). -/
def readSigFile (w : World) (p : PathT) : Except PyError SigJson :=
  match w.sigFiles.lookup p with
  | some s => .ok s
  | none => .error .fileNotFound

/-- The classification applied to one path of the untracked-changes diff
(the body of the `for name in sorted(set(all_changed_files))` loop):
`Added` when the path is absent from the expected signature, `Removed` when
absent from the actual one, `Modified` otherwise (the hashes themselves are
not consulted), rendered as `f"{descr:10} {name}"` with `descr = kind + ":"`. -/
def describeChange (expected actual : DevJarSignature) (name : PathT) : String :=
  let descr :=
    if name ∉ sigKeys expected.modified_sources then "Added"
    else if name ∉ sigKeys actual.modified_sources then "Removed"
    else "Modified"
  padTen (descr ++ ":") ++ " " ++ joinPath name

/-- Model of `DevelopmentJar.validate_cache`, step by step:

1. compute `repo_name` (see `DevelopmentJar.repoName`);
2. missing compiled jar → `CacheInvalidationException`;
3. missing signature file → `CacheInvalidationException`;
4. load the expected signature, recompute the actual one;
5. differing jar hashes → "Compiled jar changed on disk (hash)";
6. differing commits → revparse both sides with `strict=False` and raise
   "Mismatched commits" (the revparse itself can raise, see
   `DevCommit.revparse`);
7. differing changed-path key sets → "Detected N changes to uncommited
   files" with one description per path in the sorted union of the key sets;
8. finally `assert expected == actual` (dataclass equality). -/
def DevelopmentJar.validate_cache (dj : DevelopmentJar) : PyM Unit :=
  PyM.bind (PyM.lift fun w => DevelopmentJar.repoName w dj) fun _repo_name =>
  PyM.bind (PyM.lift fun w => .ok (fsExists w dj.resolved_path)) fun ex1 =>
  if !ex1 then
    PyM.throw (.cacheInvalidation "Missing compiled jar for git repo"
      ["Expected location: " ++ joinPath dj.resolved_path])
  else
    PyM.bind (PyM.lift fun w => .ok (fsExists w dj.jar_signature_path)) fun ex2 =>
    if !ex2 then
      PyM.throw (.cacheInvalidation
        ("Missing development jar signature: " ++ lastName dj.jar_signature_path) [])
    else
      PyM.bind (PyM.lift fun w => readSigFile w dj.jar_signature_path) fun sj =>
      let expected_signature := DevJarSignature.parse sj
      PyM.bind (PyM.lift fun w => DevelopmentJar.detect_current_signature w dj)
        fun actual_signature =>
      if actual_signature.jar_hash ≠ expected_signature.jar_hash then
        PyM.throw (.cacheInvalidation "Compiled jar changed on disk (hash)" [])
      else
        PyM.bind (PyM.lift fun w => DevelopmentJar.current_commit w dj) fun cur =>
        if expected_signature.source_commit ≠ cur then
          PyM.bind (PyM.lift fun w =>
            match w.revs.lookup dj.git_directory with
            | some rt => .ok rt
            | none => .error .gitError) fun rt =>
          PyM.bind (PyM.lift fun _ => DevCommit.revparse rt cur false)
            fun actual_commit =>
          PyM.bind (PyM.lift fun _ =>
            DevCommit.revparse rt expected_signature.source_commit false)
            fun expected_commit =>
          PyM.throw (.cacheInvalidation ("Mismatched commits for " ++ _repo_name)
            ["Expected commit " ++ expected_commit.short_id ++ ": " ++
              expected_commit.summary,
             "Actual commit " ++ actual_commit.short_id ++ ": " ++
              actual_commit.summary])
        else
          let changed_files := sigKeys actual_signature.modified_sources
          if !(setEqPaths changed_files (sigKeys expected_signature.modified_sources)) then
            let all_changed_files :=
              (changed_files ++ sigKeys expected_signature.modified_sources).dedup
            let change_descriptions :=
              (sortPaths all_changed_files).map
                (describeChange expected_signature actual_signature)
            PyM.throw (.cacheInvalidation
              ("Detected " ++ toString change_descriptions.length ++
                " changes to uncommited files")
              change_descriptions)
          else
            if !(sigEq expected_signature actual_signature) then
              PyM.throw .assertionError
            else PyM.ret ()

/-- Model of `DevelopmentJar.check_updates`: under `force` (and not
`ignore_updates`) the jar implicitly *is* the update and is returned as-is;
otherwise the cache is validated and `None` returned. -/
def DevelopmentJar.check_updates (dj : DevelopmentJar)
    (force ignore_updates : Bool) : PyM (Option DevelopmentJar) :=
  if force && !ignore_updates then PyM.ret (some dj)
  else PyM.bind (DevelopmentJar.validate_cache dj) fun _ => PyM.ret none

/-- Model of `DevelopmentJar.save_jar_signature`: overwrite the side-car
file with the saved signature (the only filesystem write in the embedded
fragment). -/
def DevelopmentJar.save_jar_signature (dj : DevelopmentJar)
    (s : DevJarSignature) : PyM Unit := fun w =>
  (.ok (), { w with
    sigFiles := (dj.jar_signature_path, s.save) ::
      w.sigFiles.filter (fun kv => !(kv.1 == dj.jar_signature_path)) })

/-! ## Concrete fixtures used by the claim theorems -/

/-- An empty world except for a Paper catalog that knows only build 5 of
Minecraft 1.20.1. -/
def w5 : World :=
  { files := [], dirs := [], repoHeads := [], scanRepos := [], revs := [],
    sigFiles := [], catalogBuilds := [("1.20.1", [5])], catalogInfos := [],
    home := ["home", "user"] }

/-- An official jar that believes it is build 10 of Minecraft 1.20.1 —
newer than anything the catalog in `w5` knows. -/
def j5 : OfficialPaperJar := ⟨⟨"1.20.1", 1, 20, 1⟩, 10⟩

/-- A development jar for Minecraft 1.16.5 whose repository lives at `repo`. -/
def dj2 : DevelopmentJar := ⟨⟨"1.16.5", 1, 16, 5⟩, ["repo"]⟩

/-- A clean repository model with no changes. -/
def cleanRepo : Repo := .mk [] [] [] [] []

/-- World for the C2 witness: the compiled jar's bytes are now `B`, but the
recorded signature was captured when they were `A` (and from another commit
with another change set, which must not matter). -/
def w2 : World :=
  { files := [(["repo", "Paper-Server", "target", "paper-1.16.5.jar"], "B"),
              (["cache", "dev-signature-1.16.5.json"], "(json)")],
    dirs := [["repo"], ["repo", "Paper-Server"], ["repo", "Paper-Server", "target"]],
    repoHeads := [(["repo"], some "c1")],
    scanRepos := [(["repo"], cleanRepo), (["repo", "Paper-Server"], cleanRepo)],
    revs := [],
    sigFiles := [(["cache", "dev-signature-1.16.5.json"],
      ⟨⟨"A"⟩, "old", [("q.txt", ⟨"zz"⟩)]⟩)],
    catalogBuilds := [], catalogInfos := [], home := ["home", "user"] }

/-- World for the C4 theorem: jar hashes agree, but the recorded commit
`old` is no longer resolvable while HEAD is now `c1`. -/
def w4 : World :=
  { files := [(["repo", "Paper-Server", "target", "paper-1.16.5.jar"], "J"),
              (["cache", "dev-signature-1.16.5.json"], "(json)")],
    dirs := [["repo"], ["repo", "Paper-Server"], ["repo", "Paper-Server", "target"]],
    repoHeads := [(["repo"], some "c1")],
    scanRepos := [(["repo"], cleanRepo), (["repo", "Paper-Server"], cleanRepo)],
    revs := [(["repo"], [("c1", ⟨"abc1234", some "current work\n"⟩)])],
    sigFiles := [(["cache", "dev-signature-1.16.5.json"], ⟨⟨"J"⟩, "old", []⟩)],
    catalogBuilds := [], catalogInfos := [], home := ["home", "user"] }

/-- A repository model whose status reports one modified file `x.txt`. -/
def xtxtRepo : Repo := .mk [("x.txt", 512)] [] [] [] []

/-- World for C1 and for the C3 witness: HEAD is `c1`, `x.txt` is modified
(content `A`), and the recorded signature (captured from a clean tree) lists
no changed paths. -/
def w1 : World :=
  { files := [(["repo", "Paper-Server", "target", "paper-1.16.5.jar"], "JAR"),
              (["repo", "x.txt"], "A"),
              (["cache", "dev-signature-1.16.5.json"], "(json)")],
    dirs := [["repo"], ["repo", "Paper-Server"], ["repo", "Paper-Server", "target"]],
    repoHeads := [(["repo"], some "c1")],
    scanRepos := [(["repo"], xtxtRepo), (["repo", "Paper-Server"], cleanRepo)],
    revs := [],
    sigFiles := [(["cache", "dev-signature-1.16.5.json"], ⟨⟨"JAR"⟩, "c1", []⟩)],
    catalogBuilds := [], catalogInfos := [], home := ["home", "user"] }

/-- A repository model whose status reports two modified files `a` and
`x.txt`. -/
def axRepo : Repo := .mk [("a", 512), ("x.txt", 512)] [] [] [] []

/-- World for the C3 counterexample: the signature was captured while `a`
was already modified; afterwards only the new untracked file `x.txt` was
added, so the symmetric difference of the recorded and current change sets
is exactly `{x.txt}`, while `a` carries the same hash on both sides. -/
def w3 : World :=
  { files := [(["repo", "Paper-Server", "target", "paper-1.16.5.jar"], "JAR"),
              (["repo", "a"], "aa"), (["repo", "x.txt"], "xx"),
              (["cache", "dev-signature-1.16.5.json"], "(json)")],
    dirs := [["repo"], ["repo", "Paper-Server"], ["repo", "Paper-Server", "target"]],
    repoHeads := [(["repo"], some "c1")],
    scanRepos := [(["repo"], axRepo), (["repo", "Paper-Server"], cleanRepo)],
    revs := [],
    sigFiles := [(["cache", "dev-signature-1.16.5.json"],
      ⟨⟨"JAR"⟩, "c1", [("a", ⟨"c1"⟩)]⟩)],
    catalogBuilds := [], catalogInfos := [], home := ["home", "user"] }

/-- An inner (submodule) repository with one modified file `inner.txt`. -/
def subRepoInner : Repo := .mk [("inner.txt", 128)] [] [] [] []

/-- An outer repository whose status reports the directory `sm`, which is a
registered submodule containing `subRepoInner`. -/
def subRepoOuter : Repo :=
  .mk [("sm", 256)] ["sm"] [("sm", subRepoInner)] [("sm", [("inner.txt", .file)])] []

/-! ## Helper lemmas -/

/-- Every repository model has positive size. -/
theorem repoSize_pos (repo : Repo) : 1 ≤ repoSize repo := by
  cases repo
  simp only [repoSize]
  omega

/-- `scanEntryWith` only consults `recurse` at the subrepository found for
the entry. -/
theorem scanEntryWith_congr {r1 r2 : Repo → PathT → Except PyError (List PathT)}
    {repo : Repo} {rp : PathT} {e : String × Nat}
    (h : ∀ sub, (Repo.subrepos repo).lookup e.1 = some sub →
      r1 sub (rp ++ splitPath e.1) = r2 sub (rp ++ splitPath e.1)) :
    scanEntryWith r1 repo rp e = scanEntryWith r2 repo rp e := by
  unfold scanEntryWith
  by_cases hflags : e.2 = GIT_STATUS_CURRENT ∨ e.2 = GIT_STATUS_IGNORED
  · rw [if_pos hflags, if_pos hflags]
  · rw [if_neg hflags, if_neg hflags]
    cases hdl : (Repo.dirListings repo).lookup e.1 with
    | none => rfl
    | some listing =>
      dsimp only
      by_cases hsm : joinPath (splitPath e.1) ∈ Repo.submodules repo
      · rw [if_pos hsm, if_pos hsm]
        cases hsr : (Repo.subrepos repo).lookup e.1 with
        | none => rfl
        | some sub => dsimp only; rw [h sub hsr]
      · rw [if_neg hsm, if_neg hsm]

/-- The status fold only consults `recurse` at subrepositories of `repo`. -/
theorem scanFold_congr {r1 r2 : Repo → PathT → Except PyError (List PathT)}
    {repo : Repo} {rp : PathT}
    (h : ∀ (e : String × Nat) sub, (Repo.subrepos repo).lookup e.1 = some sub →
      r1 sub (rp ++ splitPath e.1) = r2 sub (rp ++ splitPath e.1)) :
    ∀ l : List (String × Nat),
      l.foldr (fun e acc => combineScan (scanEntryWith r1 repo rp e) acc) (.ok []) =
      l.foldr (fun e acc => combineScan (scanEntryWith r2 repo rp e) acc) (.ok [])
  | [] => rfl
  | e :: rest => by
    simp only [List.foldr_cons]
    rw [scanEntryWith_congr (fun sub hsr => h e sub hsr), scanFold_congr h rest]

/-- Any two sufficient recursion budgets give the scanner the same result. -/
theorem scanFuel_congr : ∀ (f : Nat) (repo : Repo) (rp : PathT) (f' : Nat),
    repoSize repo ≤ f → repoSize repo ≤ f' →
    scanFuel f repo rp = scanFuel f' repo rp := by
  intro f
  induction f with
  | zero =>
    intro repo rp f' h1 _
    exact absurd h1 (by have := repoSize_pos repo; omega)
  | succ g ih =>
    intro repo rp f' h1 h2
    cases f' with
    | zero => exact absurd h2 (by have := repoSize_pos repo; omega)
    | succ g' =>
      simp only [scanFuel]
      refine scanFold_congr ?_ (Repo.status repo)
      intro e sub hsr
      have hlt : repoSize sub < repoSize repo := by
        have h3 := repoSize_lookup_subrepos hsr
        cases repo
        simp only [Repo.subrepos] at h3
        simp only [repoSize]
        omega
      exact ih sub (rp ++ splitPath e.1) g' (by omega) (by omega)

/-- The scanner satisfies the recursion of the source exactly: one pass over
the status entries, recursing into submodules via `detectChangedFiles`
itself (in particular the internal recursion budget never runs out). -/
theorem detectChangedFiles_unfold (repo : Repo) (rp : PathT) :
    detectChangedFiles repo rp =
      (Repo.status repo).foldr
        (fun e acc => combineScan (scanEntryWith detectChangedFiles repo rp e) acc)
        (.ok []) := by
  unfold detectChangedFiles
  obtain ⟨n, hn⟩ : ∃ n, repoSize repo = n + 1 :=
    ⟨repoSize repo - 1, by have := repoSize_pos repo; omega⟩
  rw [hn]
  simp only [scanFuel]
  refine scanFold_congr ?_ (Repo.status repo)
  intro e sub hsr
  have hlt : repoSize sub < repoSize repo := by
    have h3 := repoSize_lookup_subrepos hsr
    cases repo
    simp only [Repo.subrepos] at h3
    simp only [repoSize]
    omega
  exact scanFuel_congr n sub (rp ++ splitPath e.1) (repoSize sub) (by omega) (by omega)

/-- Membership is preserved by `insertPath`. -/
theorem mem_insertPath {y x : PathT} {l : List PathT} :
    y ∈ insertPath x l ↔ y = x ∨ y ∈ l := by
  induction l with
  | nil => simp [insertPath]
  | cons z zs ih =>
    unfold insertPath
    by_cases hc : pathLe x z = true
    · simp [hc, List.mem_cons]
    · simp only [if_neg hc, List.mem_cons, ih]
      tauto

/-- Membership is preserved by `sortPaths`. -/
theorem mem_sortPaths {y : PathT} {l : List PathT} :
    y ∈ sortPaths l ↔ y ∈ l := by
  induction l with
  | nil => simp [sortPaths]
  | cons x xs ih =>
    unfold sortPaths
    rw [mem_insertPath, ih, List.mem_cons]

/-- Lifted reads are read-only. -/
theorem readOnly_lift {α : Type} (f : World → Except PyError α) :
    ReadOnly (PyM.lift f) := fun _ => rfl

theorem readOnly_ret {α : Type} (a : α) : ReadOnly (PyM.ret a) := fun _ => rfl

theorem readOnly_throw {α : Type} (e : PyError) :
    ReadOnly (PyM.throw (α := α) e) := fun _ => rfl

/-- Sequencing two read-only computations is read-only. -/
theorem readOnly_bind {α β : Type} {m : PyM α} {f : α → PyM β}
    (hm : ReadOnly m) (hf : ∀ a, ReadOnly (f a)) : ReadOnly (PyM.bind m f) := by
  intro w
  have h2 := hm w
  unfold PyM.bind
  rcases hmw : m w with ⟨r, w2⟩
  rw [hmw] at h2
  simp only at h2
  subst h2
  cases r with
  | ok a => exact hf a _
  | error e => rfl

/-- A conditional between read-only computations is read-only. -/
theorem readOnly_ite {α : Type} (c : Prop) [Decidable c] {m₁ m₂ : PyM α}
    (h₁ : ReadOnly m₁) (h₂ : ReadOnly m₂) : ReadOnly (if c then m₁ else m₂) := by
  by_cases hc : c
  · rw [if_pos hc]; exact h₁
  · rw [if_neg hc]; exact h₂

/-- Binding a lifted read that succeeds steps to the continuation. -/
theorem PyM.bind_lift_ok {α β : Type} {f : World → Except PyError α}
    {g : α → PyM β} {w : World} {a : α} (h : f w = .ok a) :
    PyM.bind (PyM.lift f) g w = g a w := by
  simp [PyM.bind, PyM.lift, h]

/-- Binding a lifted read that raises propagates the exception. -/
theorem PyM.bind_lift_err {α β : Type} {f : World → Except PyError α}
    {g : α → PyM β} {w : World} {e : PyError} (h : f w = .error e) :
    PyM.bind (PyM.lift f) g w = (.error e, w) := by
  simp [PyM.bind, PyM.lift, h]

theorem PyM.throw_apply {α : Type} (e : PyError) (w : World) :
    PyM.throw (α := α) e w = (.error e, w) := rfl

theorem PyM.ret_apply {α : Type} (a : α) (w : World) :
    PyM.ret a w = (.ok a, w) := rfl

/-- Splitting the joined form of a valid path recovers the path:
`Path(str(p)) == p`. -/
theorem splitPath_joinPath (p : PathT) (h : ValidPath p) :
    splitPath (joinPath p) = p := by
  obtain ⟨hne, hs⟩ := h
  have hdata : (joinPath p).data = List.intercalate ['/'] (p.map String.data) := rfl
  unfold splitPath
  rw [hdata]
  have hx : ∀ l ∈ p.map String.data, '/' ∉ l := by
    intro l hl
    obtain ⟨s, hsmem, rfl⟩ := List.mem_map.mp hl
    exact hs s hsmem
  have hls : p.map String.data ≠ [] := by
    intro hcon
    exact hne (List.map_eq_nil_iff.mp hcon)
  rw [List.splitOn_intercalate (p.map String.data) '/' hx hls, List.map_map]
  have hid : (String.mk ∘ String.data) = id := funext fun s => rfl
  rw [hid, List.map_id]

/-! ## Claim theorems -/

/-- C6: the claim says `MinecraftVersion` carries a total order that is
lexicographic on the `(major, minor, patch)` triple.  The source's `__gt__`
(`self.major > other.major or self.minor > other.minor or self.patch >
other.patch`) is not lexicographic: for `1.5` versus `2.0.1` it answers
`True` in *both* directions (so it is not even asymmetric, contradicting the
`@total_ordering` contract the class declares), while lexicographically
`(1,5,0) < (2,0,1)`. -/
theorem version_gt_is_not_lexicographic :
    MinecraftVersion.initFields "1.5" = some ⟨"1.5", 1, 5, 0⟩ ∧
    MinecraftVersion.initFields "2.0.1" = some ⟨"2.0.1", 2, 0, 1⟩ ∧
    MinecraftVersion.vgt ⟨"1.5", 1, 5, 0⟩ ⟨"2.0.1", 2, 0, 1⟩ = true ∧
    MinecraftVersion.lexGtSpec ⟨"1.5", 1, 5, 0⟩ ⟨"2.0.1", 2, 0, 1⟩ = false ∧
    MinecraftVersion.vgt ⟨"2.0.1", 2, 0, 1⟩ ⟨"1.5", 1, 5, 0⟩ = true := by
  decide

/-- C10: a version string with an omitted patch component parses with patch
defaulting to 0, so `MinecraftVersion("1.2")` and `MinecraftVersion("1.2.0")`
carry identical numeric triples; yet they are distinct interned instances
that compare unequal (`__eq__` is by literal name) and have different
hashes, while re-constructing from the identical string returns the very
same instance with the interning table unchanged. -/
theorem version_interning_and_name_equality :
    MinecraftVersion.construct [] "1.2" =
      .ok (⟨"1.2", 1, 2, 0⟩, [("1.2", ⟨"1.2", 1, 2, 0⟩)]) ∧
    MinecraftVersion.construct [("1.2", ⟨"1.2", 1, 2, 0⟩)] "1.2.0" =
      .ok (⟨"1.2.0", 1, 2, 0⟩,
        [("1.2.0", ⟨"1.2.0", 1, 2, 0⟩), ("1.2", ⟨"1.2", 1, 2, 0⟩)]) ∧
    (MinecraftVersion.mk "1.2" 1 2 0).major = (MinecraftVersion.mk "1.2.0" 1 2 0).major ∧
    (MinecraftVersion.mk "1.2" 1 2 0).minor = (MinecraftVersion.mk "1.2.0" 1 2 0).minor ∧
    (MinecraftVersion.mk "1.2" 1 2 0).patch = (MinecraftVersion.mk "1.2.0" 1 2 0).patch ∧
    MinecraftVersion.veq ⟨"1.2", 1, 2, 0⟩ ⟨"1.2.0", 1, 2, 0⟩ = false ∧
    (⟨"1.2", 1, 2, 0⟩ : MinecraftVersion) ≠ ⟨"1.2.0", 1, 2, 0⟩ ∧
    MinecraftVersion.hashv ⟨"1.2", 1, 2, 0⟩ ≠ MinecraftVersion.hashv ⟨"1.2.0", 1, 2, 0⟩ ∧
    MinecraftVersion.construct
        [("1.2.0", ⟨"1.2.0", 1, 2, 0⟩), ("1.2", ⟨"1.2", 1, 2, 0⟩)] "1.2" =
      .ok (⟨"1.2", 1, 2, 0⟩,
        [("1.2.0", ⟨"1.2.0", 1, 2, 0⟩), ("1.2", ⟨"1.2", 1, 2, 0⟩)]) := by
  decide

/-- C8: serialization round-trip — for every signature `s` whose recorded
paths are genuine relative `pathlib.Path` values (nonempty component lists
with no slash inside a component), `DevJarSignature.parse (s.save()) = s`,
which in particular makes `jar_hash`, `source_commit` and the
`modified_sources` pairs of both sides equal. -/
theorem signature_save_parse_round_trip (s : DevJarSignature)
    (h : ∀ kv ∈ s.modified_sources, ValidPath kv.1) :
    DevJarSignature.parse (DevJarSignature.save s) = s := by
  cases s with
  | mk jh sc ms =>
    show DevJarSignature.mk jh sc
      ((ms.map fun kv => (joinPath kv.1, kv.2)).map fun kv => (splitPath kv.1, kv.2)) =
      ⟨jh, sc, ms⟩
    have haux : ∀ (l : List (PathT × Digest)), (∀ kv ∈ l, ValidPath kv.1) →
        ((l.map fun kv => (joinPath kv.1, kv.2)).map fun kv => (splitPath kv.1, kv.2)) = l := by
      intro l hl
      induction l with
      | nil => rfl
      | cons kv rest ih =>
        simp only [List.map_cons,
          splitPath_joinPath kv.1 (hl kv (List.mem_cons_self kv rest)),
          ih (fun kv2 hk => hl kv2 (List.mem_cons_of_mem kv hk)), List.cons.injEq, and_true]
    rw [haux ms h]

/-- Witness for C8: the round trip evaluated at a concrete signature. -/
theorem signature_round_trip_witness :
    (∀ kv ∈ ([(["src", "Main.java"], ⟨"h1"⟩), (["work"], ⟨"h2"⟩)] :
        List (PathT × Digest)), ValidPath kv.1) ∧
    DevJarSignature.parse (DevJarSignature.save
        ⟨⟨"jarbytes"⟩, "c1",
          [(["src", "Main.java"], ⟨"h1"⟩), (["work"], ⟨"h2"⟩)]⟩) =
      ⟨⟨"jarbytes"⟩, "c1", [(["src", "Main.java"], ⟨"h1"⟩), (["work"], ⟨"h2"⟩)]⟩ :=
  ⟨by decide, signature_save_parse_round_trip _ (by decide)⟩

/-- C2: the artifact-hash comparison comes first — whenever `validate_cache`
reaches the signature comparison and the actual jar hash differs from the
recorded one, it raises exactly the "Compiled jar changed on disk (hash)"
invalidation error, with no hypothesis at all about the recorded commit or
the changed-path sets: a hash mismatch short-circuits the revision
comparison and the changed-path comparison, so the untracked-changes error
can never be raised for such an artifact. -/
theorem validate_cache_hash_mismatch_short_circuits
    (w : World) (dj : DevelopmentJar) (sj : SigJson) (actual : DevJarSignature)
    (hname : ¬(dj.git_directory <+: w.home ∧ dj.git_directory ≠ w.home))
    (hjar : fsExists w dj.resolved_path = true)
    (hsig : fsExists w dj.jar_signature_path = true)
    (hread : readSigFile w dj.jar_signature_path = .ok sj)
    (hdet : DevelopmentJar.detect_current_signature w dj = .ok actual)
    (hmm : actual.jar_hash ≠ (DevJarSignature.parse sj).jar_hash) :
    (DevelopmentJar.validate_cache dj w).1 =
      .error (.cacheInvalidation "Compiled jar changed on disk (hash)" []) := by
  unfold DevelopmentJar.validate_cache
  rw [PyM.bind_lift_ok (show DevelopmentJar.repoName w dj = .ok (joinPath dj.git_directory) by
    unfold DevelopmentJar.repoName
    rw [if_neg hname])]
  rw [PyM.bind_lift_ok (show (fun w => Except.ok (fsExists w dj.resolved_path)) w =
    .ok true by simp only [hjar])]
  simp only [Bool.not_true, Bool.false_eq_true, if_false]
  rw [PyM.bind_lift_ok (show (fun w => Except.ok (fsExists w dj.jar_signature_path)) w =
    .ok true by simp only [hsig])]
  simp only [Bool.not_true, Bool.false_eq_true, if_false]
  rw [PyM.bind_lift_ok (show (fun w => readSigFile w dj.jar_signature_path) w = .ok sj
    from hread)]
  rw [PyM.bind_lift_ok (show (fun w => DevelopmentJar.detect_current_signature w dj) w =
    .ok actual from hdet)]
  rw [if_pos hmm]
  rfl

/-- Witness for C2: a world in which the jar bytes were replaced (`A`
recorded, `B` on disk) while the recorded commit (`old` versus `c1`) and the
recorded change set (`q.txt` versus nothing) also differ — the failure is
still the hash-mismatch error, not the commit or untracked-changes one. -/
theorem validate_cache_hash_mismatch_witness :
    (¬(dj2.git_directory <+: w2.home ∧ dj2.git_directory ≠ w2.home)) ∧
    fsExists w2 dj2.resolved_path = true ∧
    fsExists w2 dj2.jar_signature_path = true ∧
    readSigFile w2 dj2.jar_signature_path = .ok ⟨⟨"A"⟩, "old", [("q.txt", ⟨"zz"⟩)]⟩ ∧
    DevelopmentJar.detect_current_signature w2 dj2 = .ok ⟨⟨"B"⟩, "c1", []⟩ ∧
    (DevJarSignature.mk ⟨"B"⟩ "c1" []).jar_hash ≠
      (DevJarSignature.parse ⟨⟨"A"⟩, "old", [("q.txt", ⟨"zz"⟩)]⟩).jar_hash ∧
    (DevelopmentJar.validate_cache dj2 w2).1 =
      .error (.cacheInvalidation "Compiled jar changed on disk (hash)" []) := by
  have hdet : DevelopmentJar.detect_current_signature w2 dj2 = .ok ⟨⟨"B"⟩, "c1", []⟩ := by
    decide
  exact ⟨by decide, rfl, rfl, rfl, hdet, by decide,
    validate_cache_hash_mismatch_short_circuits w2 dj2 _ _ (by decide) rfl rfl rfl hdet
      (by decide)⟩

/-- C4: graceful degradation on revision resolution fails.  In `w4` the
recorded commit `old` differs from HEAD `c1` and is no longer resolvable, so
`validate_cache` calls `DevCommit.revparse(repo, "old", strict=False)`; the
fallback substitutes the message `"<UNKNOWN MESSGAE>"`, which contains no
newline, so the local `summary` is never assigned and the whole validation
aborts with `UnboundLocalError` instead of the claimed revision-mismatch
invalidation error showing the raw revision string. -/
theorem revparse_fallback_raises_unbound_local :
    DevCommit.revparse [("c1", ⟨"abc1234", some "current work\n"⟩)] "old" false =
      .error .unboundLocal ∧
    (DevelopmentJar.validate_cache dj2 w4).1 = .error .unboundLocal := by
  constructor
  · decide
  · decide

/-- C1: the claim says `detect_current_signature` maps every changed path to
that path's own hash (plain file hash, or repository-mode hash for nested
checkouts).  In `w1` the single changed path `x.txt` is a plain file whose
content hashes to `Digest "A"`, yet the signature records `Digest "c1"` for
it — the repository-mode hash of the outer git directory itself (the dict
comprehension hashes `Path(self.git_directory)` for every `p`, never `p`).
The jar-hash half of the claim does hold: `jar_hash` is the plain hash of
the resolved jar. -/
theorem detect_current_signature_hashes_repo_dir_not_path :
    DevelopmentJar.detect_current_signature w1 dj2 =
      .ok ⟨⟨"JAR"⟩, "c1", [(["x.txt"], ⟨"c1"⟩)]⟩ ∧
    hash_file w1 ["repo", "x.txt"] false = .ok ⟨"A"⟩ ∧
    hash_file w1 dj2.git_directory true = .ok ⟨"c1"⟩ ∧
    hash_file w1 (DevelopmentJar.resolved_path dj2) false = .ok ⟨"JAR"⟩ ∧
    (Digest.mk "c1") ≠ ⟨"A"⟩ := by
  decide

/-- Reduction of `validate_cache` to its changed-path comparison: when the
artifact exists, the signature loads, the jar hashes agree and the commits
agree, the verdict is decided by the key-set comparison (and the final
dataclass-equality assert). -/
theorem validate_cache_reaches_diff
    (w : World) (dj : DevelopmentJar) (sj : SigJson) (actual : DevJarSignature) (c : String)
    (hname : ¬(dj.git_directory <+: w.home ∧ dj.git_directory ≠ w.home))
    (hjar : fsExists w dj.resolved_path = true)
    (hsig : fsExists w dj.jar_signature_path = true)
    (hread : readSigFile w dj.jar_signature_path = .ok sj)
    (hdet : DevelopmentJar.detect_current_signature w dj = .ok actual)
    (hhash : actual.jar_hash = (DevJarSignature.parse sj).jar_hash)
    (hcur : DevelopmentJar.current_commit w dj = .ok c)
    (hsc : (DevJarSignature.parse sj).source_commit = c) :
    (DevelopmentJar.validate_cache dj w).1 =
      (if !(setEqPaths (sigKeys actual.modified_sources)
          (sigKeys (DevJarSignature.parse sj).modified_sources)) then
        .error (.cacheInvalidation
          ("Detected " ++ toString ((sortPaths ((sigKeys actual.modified_sources ++
              sigKeys (DevJarSignature.parse sj).modified_sources).dedup)).map
              (describeChange (DevJarSignature.parse sj) actual)).length ++
            " changes to uncommited files")
          ((sortPaths ((sigKeys actual.modified_sources ++
              sigKeys (DevJarSignature.parse sj).modified_sources).dedup)).map
              (describeChange (DevJarSignature.parse sj) actual)))
      else if !(sigEq (DevJarSignature.parse sj) actual) then .error .assertionError
      else .ok ()) := by
  unfold DevelopmentJar.validate_cache
  rw [PyM.bind_lift_ok (show DevelopmentJar.repoName w dj = .ok (joinPath dj.git_directory) by
    unfold DevelopmentJar.repoName
    rw [if_neg hname])]
  rw [PyM.bind_lift_ok (show (fun w => Except.ok (fsExists w dj.resolved_path)) w =
    .ok true by simp only [hjar])]
  simp only [Bool.not_true, Bool.false_eq_true, if_false]
  rw [PyM.bind_lift_ok (show (fun w => Except.ok (fsExists w dj.jar_signature_path)) w =
    .ok true by simp only [hsig])]
  simp only [Bool.not_true, Bool.false_eq_true, if_false]
  rw [PyM.bind_lift_ok (show (fun w => readSigFile w dj.jar_signature_path) w = .ok sj
    from hread)]
  rw [PyM.bind_lift_ok (show (fun w => DevelopmentJar.detect_current_signature w dj) w =
    .ok actual from hdet)]
  rw [if_neg (show ¬(actual.jar_hash ≠ (DevJarSignature.parse sj).jar_hash) from
    not_not_intro hhash)]
  rw [PyM.bind_lift_ok (show (fun w => DevelopmentJar.current_commit w dj) w = .ok c
    from hcur)]
  rw [if_neg (show ¬((DevJarSignature.parse sj).source_commit ≠ c) from not_not_intro hsc)]
  by_cases hset : (!(setEqPaths (sigKeys actual.modified_sources)
      (sigKeys (DevJarSignature.parse sj).modified_sources))) = true
  · rw [if_pos hset, if_pos hset]
    rfl
  · rw [if_neg hset, if_neg hset]
    by_cases heq : (!(sigEq (DevJarSignature.parse sj) actual)) = true
    · rw [if_pos heq, if_pos heq]
      rfl
    · rw [if_neg heq, if_neg heq]
      rfl

/-- C3 counterexample: the signature in `w3` was captured while `a` was
modified; afterwards exactly one new untracked file `x.txt` appeared.  The
claim demands a diff list with exactly one entry (for `x.txt`, the sorted
symmetric difference), but the code reports two entries: `a` — present on
both sides with the *same* hash — is listed as `Modified`, because the loop
runs over the union of the key sets and never compares hashes. -/
theorem untracked_diff_lists_union_counterexample :
    readSigFile w3 dj2.jar_signature_path = .ok ⟨⟨"JAR"⟩, "c1", [("a", ⟨"c1"⟩)]⟩ ∧
    DevelopmentJar.detect_current_signature w3 dj2 =
      .ok ⟨⟨"JAR"⟩, "c1", [(["a"], ⟨"c1"⟩), (["x.txt"], ⟨"c1"⟩)]⟩ ∧
    (DevJarSignature.parse ⟨⟨"JAR"⟩, "c1", [("a", ⟨"c1"⟩)]⟩).modified_sources.lookup
      (["a"] : PathT) = some ⟨"c1"⟩ ∧
    ([(["a"], ⟨"c1"⟩), (["x.txt"], ⟨"c1"⟩)] : List (PathT × Digest)).lookup
      (["a"] : PathT) = some ⟨"c1"⟩ ∧
    (DevelopmentJar.validate_cache dj2 w3).1 =
      .error (.cacheInvalidation "Detected 2 changes to uncommited files"
        ["Modified:  a", "Added:     x.txt"]) := by
  refine ⟨by decide, by decide, by decide, by decide, by decide⟩

/-- C3 as amended: when validation reaches the changed-path comparison and
the key sets differ, the raised invalidation error carries one formatted
entry per path in the *sorted union* of the two key sets (so its length is
the number of distinct paths in the union, not of the symmetric
difference); every union path's entry is present, and the entry for a path
reads `Added` when the path is only in the actual signature, `Removed` when
only in the expected one, and `Modified` when in both — regardless of
whether the hashes differ. -/
theorem untracked_diff_classification_amended
    (w : World) (dj : DevelopmentJar) (sj : SigJson) (actual : DevJarSignature) (c : String)
    (hname : ¬(dj.git_directory <+: w.home ∧ dj.git_directory ≠ w.home))
    (hjar : fsExists w dj.resolved_path = true)
    (hsig : fsExists w dj.jar_signature_path = true)
    (hread : readSigFile w dj.jar_signature_path = .ok sj)
    (hdet : DevelopmentJar.detect_current_signature w dj = .ok actual)
    (hhash : actual.jar_hash = (DevJarSignature.parse sj).jar_hash)
    (hcur : DevelopmentJar.current_commit w dj = .ok c)
    (hsc : (DevJarSignature.parse sj).source_commit = c)
    (hneq : setEqPaths (sigKeys actual.modified_sources)
      (sigKeys (DevJarSignature.parse sj).modified_sources) = false) :
    (DevelopmentJar.validate_cache dj w).1 =
      .error (.cacheInvalidation
        ("Detected " ++ toString ((sortPaths ((sigKeys actual.modified_sources ++
            sigKeys (DevJarSignature.parse sj).modified_sources).dedup)).map
            (describeChange (DevJarSignature.parse sj) actual)).length ++
          " changes to uncommited files")
        ((sortPaths ((sigKeys actual.modified_sources ++
            sigKeys (DevJarSignature.parse sj).modified_sources).dedup)).map
            (describeChange (DevJarSignature.parse sj) actual))) ∧
    (∀ p : PathT, p ∈ sigKeys actual.modified_sources ∨
        p ∈ sigKeys (DevJarSignature.parse sj).modified_sources →
      describeChange (DevJarSignature.parse sj) actual p ∈
        (sortPaths ((sigKeys actual.modified_sources ++
          sigKeys (DevJarSignature.parse sj).modified_sources).dedup)).map
          (describeChange (DevJarSignature.parse sj) actual)) ∧
    (∀ p : PathT, p ∉ sigKeys (DevJarSignature.parse sj).modified_sources →
      describeChange (DevJarSignature.parse sj) actual p =
        padTen "Added:" ++ " " ++ joinPath p) ∧
    (∀ p : PathT, p ∈ sigKeys (DevJarSignature.parse sj).modified_sources →
        p ∉ sigKeys actual.modified_sources →
      describeChange (DevJarSignature.parse sj) actual p =
        padTen "Removed:" ++ " " ++ joinPath p) ∧
    (∀ p : PathT, p ∈ sigKeys (DevJarSignature.parse sj).modified_sources →
        p ∈ sigKeys actual.modified_sources →
      describeChange (DevJarSignature.parse sj) actual p =
        padTen "Modified:" ++ " " ++ joinPath p) := by
  refine ⟨?_, ?_, ?_, ?_, ?_⟩
  · rw [validate_cache_reaches_diff w dj sj actual c hname hjar hsig hread hdet hhash hcur hsc]
    rw [if_pos (by rw [hneq]; rfl)]
  · intro p hp
    refine List.mem_map_of_mem _ ?_
    rw [mem_sortPaths, List.mem_dedup, List.mem_append]
    exact hp
  · intro p hpe
    unfold describeChange
    rw [if_pos hpe]
    rfl
  · intro p hpe hpa
    unfold describeChange
    rw [if_neg (not_not_intro hpe), if_pos hpa]
    rfl
  · intro p hpe hpa
    unfold describeChange
    rw [if_neg (not_not_intro hpe), if_neg (not_not_intro hpa)]
    rfl


/-- Witness for the amended C3: in `w1` the recorded signature lists no
changed paths and exactly one new untracked file `x.txt` exists, so the
failure carries exactly one diff entry, classified `Added`, for `x.txt`. -/
theorem untracked_diff_classification_witness :
    fsExists w1 dj2.resolved_path = true ∧
    readSigFile w1 dj2.jar_signature_path = .ok ⟨⟨"JAR"⟩, "c1", []⟩ ∧
    setEqPaths (sigKeys [((["x.txt"] : PathT), Digest.mk "c1")])
      (sigKeys (DevJarSignature.parse ⟨⟨"JAR"⟩, "c1", []⟩).modified_sources) = false ∧
    (DevelopmentJar.validate_cache dj2 w1).1 =
      .error (.cacheInvalidation "Detected 1 changes to uncommited files"
        ["Added:     x.txt"]) := by
  have hdet : DevelopmentJar.detect_current_signature w1 dj2 =
      .ok ⟨⟨"JAR"⟩, "c1", [(["x.txt"], ⟨"c1"⟩)]⟩ := by decide
  have h := untracked_diff_classification_amended w1 dj2 ⟨⟨"JAR"⟩, "c1", []⟩
    ⟨⟨"JAR"⟩, "c1", [(["x.txt"], ⟨"c1"⟩)]⟩ "c1"
    (by decide) rfl rfl rfl hdet rfl rfl rfl (by decide)
  refine ⟨rfl, rfl, by decide, ?_⟩
  rw [h.1]
  decide

/-- Evaluating the scanner on the submodule fixture: the submodule directory
itself is emitted, followed by the changed file inside it. -/
theorem detect_changed_submodule_fixture :
    detectChangedFiles subRepoOuter ["r"] =
      .ok [["r", "sm"], ["r", "sm", "inner.txt"]] := by decide

/-- Decomposition of a successful scan of a status list into the yields of
its first entry and of the rest. -/
theorem scanFold_ok_cons {repo : Repo} {rp : PathT} {e : String × Nat}
    {rest : List (String × Nat)} {out : List PathT}
    (h : (e :: rest).foldr
        (fun e acc => combineScan (scanEntryWith detectChangedFiles repo rp e) acc)
        (.ok []) = .ok out) :
    ∃ f m, scanEntryWith detectChangedFiles repo rp e = .ok f ∧
      rest.foldr
        (fun e acc => combineScan (scanEntryWith detectChangedFiles repo rp e) acc)
        (.ok []) = .ok m ∧
      out = f ++ m := by
  rw [List.foldr_cons] at h
  cases he : scanEntryWith detectChangedFiles repo rp e with
  | error err => rw [he] at h; cases h
  | ok f =>
    rw [he] at h
    cases hm : rest.foldr
        (fun e acc => combineScan (scanEntryWith detectChangedFiles repo rp e) acc)
        (.ok []) with
    | error err => rw [hm] at h; cases h
    | ok m =>
      rw [hm] at h
      exact ⟨f, m, rfl, rfl, (Except.ok.inj h).symm⟩

/-- In the submodule case a status entry yields the submodule path followed
by the recursive scan of the submodule repository. -/
theorem scanEntry_submodule {repo : Repo} {rp : PathT} {file : String}
    {flags : Nat} {listing : List (String × FsTree)} {sub : Repo} {inner : List PathT}
    (hflags : ¬(flags = GIT_STATUS_CURRENT ∨ flags = GIT_STATUS_IGNORED))
    (hdir : (Repo.dirListings repo).lookup file = some listing)
    (hsm : joinPath (splitPath file) ∈ Repo.submodules repo)
    (hsub : (Repo.subrepos repo).lookup file = some sub)
    (hinner : detectChangedFiles sub (rp ++ splitPath file) = .ok inner) :
    scanEntryWith detectChangedFiles repo rp (file, flags) =
      .ok ((rp ++ splitPath file) :: inner) := by
  rw [scanEntryWith]
  simp only []
  rw [if_neg hflags, hdir]
  simp only [if_pos hsm]
  split
  · rename_i hnone
    rw [hsub] at hnone
    cases hnone
  · rename_i sub2 hsub2
    rw [hsub] at hsub2
    cases hsub2
    rw [hinner]

/-- Every status entry for a registered submodule contributes the submodule
path and all of the submodule's own changed paths to a successful scan. -/
theorem scanFold_submodule_mem {repo : Repo} {rp : PathT} {file : String}
    {flags : Nat} {listing : List (String × FsTree)} {sub : Repo}
    {inner out : List PathT} {l : List (String × Nat)}
    (hmem : (file, flags) ∈ l)
    (hflags : ¬(flags = GIT_STATUS_CURRENT ∨ flags = GIT_STATUS_IGNORED))
    (hdir : (Repo.dirListings repo).lookup file = some listing)
    (hsm : joinPath (splitPath file) ∈ Repo.submodules repo)
    (hsub : (Repo.subrepos repo).lookup file = some sub)
    (hinner : detectChangedFiles sub (rp ++ splitPath file) = .ok inner)
    (hout : l.foldr
        (fun e acc => combineScan (scanEntryWith detectChangedFiles repo rp e) acc)
        (.ok []) = .ok out) :
    (rp ++ splitPath file) ∈ out ∧ ∀ q ∈ inner, q ∈ out := by
  induction l generalizing out with
  | nil => cases hmem
  | cons e rest ih =>
    obtain ⟨f, m, he, hm, rfl⟩ := scanFold_ok_cons hout
    rcases List.mem_cons.mp hmem with heq | hmem2
    · subst heq
      rw [scanEntry_submodule hflags hdir hsm hsub hinner] at he
      cases he
      constructor
      · exact List.mem_append_left _ (List.mem_cons_self _ _)
      · intro q hq
        exact List.mem_append_left _ (List.mem_cons_of_mem _ hq)
    · obtain ⟨hmem3, hall⟩ := ih hmem2 hm
      exact ⟨List.mem_append_right _ hmem3,
        fun q hq => List.mem_append_right _ (hall q hq)⟩

/-- C7: submodule expansion.  Whenever the status of a repository reports a
changed directory that is a registered submodule (present on disk as its own
repository), a successful `detect_changed_files` run emits both the
submodule directory path itself and every path of the submodule's own
recursive scan. -/
theorem submodule_scan_emits_dir_and_children
    (repo : Repo) (rp : PathT) (file : String) (flags : Nat)
    (listing : List (String × FsTree)) (sub : Repo) (inner out : List PathT)
    (hmem : (file, flags) ∈ Repo.status repo)
    (hflags : ¬(flags = GIT_STATUS_CURRENT ∨ flags = GIT_STATUS_IGNORED))
    (hdir : (Repo.dirListings repo).lookup file = some listing)
    (hsm : joinPath (splitPath file) ∈ Repo.submodules repo)
    (hsub : (Repo.subrepos repo).lookup file = some sub)
    (hinner : detectChangedFiles sub (rp ++ splitPath file) = .ok inner)
    (hout : detectChangedFiles repo rp = .ok out) :
    (rp ++ splitPath file) ∈ out ∧ ∀ q ∈ inner, q ∈ out := by
  rw [detectChangedFiles_unfold] at hout
  exact scanFold_submodule_mem hmem hflags hdir hsm hsub hinner hout

/-- Witness for C7: in the concrete fixture the scan of the outer repository
contains the submodule path `r/sm` and the nested changed file
`r/sm/inner.txt`. -/
theorem submodule_scan_witness :
    (("sm", 256) ∈ Repo.status subRepoOuter) ∧
    detectChangedFiles subRepoInner (["r"] ++ splitPath "sm") =
      .ok [["r", "sm", "inner.txt"]] ∧
    ((["r"] ++ splitPath "sm") ∈ [["r", "sm"], ["r", "sm", "inner.txt"]] ∧
      ∀ q ∈ [["r", "sm", "inner.txt"]],
        q ∈ [(["r", "sm"] : PathT), ["r", "sm", "inner.txt"]]) := by
  have hinner : detectChangedFiles subRepoInner (["r"] ++ splitPath "sm") =
      .ok [["r", "sm", "inner.txt"]] := by decide
  refine ⟨by decide, hinner, ?_⟩
  exact submodule_scan_emits_dir_and_children subRepoOuter ["r"] "sm" 256
    [("inner.txt", .file)] subRepoInner [["r", "sm", "inner.txt"]]
    [["r", "sm"], ["r", "sm", "inner.txt"]]
    (by decide) (by decide) rfl (by decide) rfl hinner
    detect_changed_submodule_fixture

/-- Read-only-ness of the development cache validation. -/
theorem validate_cache_read_only (dj : DevelopmentJar) :
    ReadOnly (DevelopmentJar.validate_cache dj) := by
  unfold DevelopmentJar.validate_cache
  refine readOnly_bind (readOnly_lift _) fun _rn => ?_
  refine readOnly_bind (readOnly_lift _) fun ex1 => ?_
  refine readOnly_ite _ (readOnly_throw _) ?_
  refine readOnly_bind (readOnly_lift _) fun ex2 => ?_
  refine readOnly_ite _ (readOnly_throw _) ?_
  refine readOnly_bind (readOnly_lift _) fun sj => ?_
  refine readOnly_bind (readOnly_lift _) fun actual => ?_
  refine readOnly_ite _ (readOnly_throw _) ?_
  refine readOnly_bind (readOnly_lift _) fun cur => ?_
  refine readOnly_ite _ ?_ ?_
  · refine readOnly_bind (readOnly_lift _) fun rt => ?_
    refine readOnly_bind (readOnly_lift _) fun ac => ?_
    refine readOnly_bind (readOnly_lift _) fun ec => ?_
    exact readOnly_throw _
  · refine readOnly_ite _ (readOnly_throw _) ?_
    exact readOnly_ite _ (readOnly_throw _) (readOnly_ret _)

/-- Read-only-ness of the official update check under `ignore_updates`. -/
theorem check_updates_ignore_read_only (j : OfficialPaperJar) (force : Bool) :
    ReadOnly (OfficialPaperJar.check_updates j force true) := by
  unfold OfficialPaperJar.check_updates
  rw [if_neg (by decide : ¬((!true) = true))]
  refine readOnly_bind (readOnly_lift _) fun ex => ?_
  refine readOnly_ite _ (readOnly_throw _) ?_
  refine readOnly_bind (readOnly_lift _) fun ajh => ?_
  refine readOnly_bind (readOnly_lift _) fun info => ?_
  exact readOnly_ite _ (readOnly_throw _) (readOnly_ret _)

/-- C9: validation is read-only.  Development `validate_cache` and official
`check_updates(ignore_updates=True)` leave the whole world — in particular
the signature side-car file contents and the resolved artifact bytes —
untouched, whether they succeed or raise a cache-invalidation error.  (The
world is genuinely mutable in this embedding: `save_jar_signature` does
rewrite it.) -/
theorem validation_is_read_only :
    ∀ (w : World) (dj : DevelopmentJar) (j : OfficialPaperJar) (force : Bool),
      (DevelopmentJar.validate_cache dj w).2 = w ∧
      (OfficialPaperJar.check_updates j force true w).2 = w :=
  fun w dj j force =>
    ⟨validate_cache_read_only dj w, check_updates_ignore_read_only j force w⟩

/-- C5: the claim says that when the catalog's maximum known build is
strictly below the resolver's current build number, `check_updates` raises
the fatal catalog-inconsistency `PaperVersionException`.  The source indeed
never returns normally on this path, but the `raise
PaperVersionException(summary=..., full_message=...)` statement passes
keyword arguments that `Exception.__init__` rejects, so what actually
escapes is a `TypeError`, not a `PaperVersionException`. -/
theorem catalog_regression_raises_type_error :
    knownPaperBuilds w5 j5.minecraft_version = .ok [5] ∧
    pyMaxInt 5 [] < j5.build_number ∧
    (OfficialPaperJar.check_updates j5 false false w5).1 = .error .typeError := by
  decide

end Mcserver
